import Mathlib

/-!
Shallow embedding of `src/google_ads_reports/retry.py` (retry decorator for
transient Google Ads API errors) and proofs about its behaviour.

Modelling conventions:
* Python floats (`base_delay`, `max_delay`, `backoff_factor`, delays) are
  modelled as rationals `ℚ`.
* `max_attempts` is a Python `int`, modelled as `Int`; `range(max_attempts)`
  has `max_attempts.toNat` iterations.
* A `GoogleAdsException` is modelled by the two pieces of data
  `_is_retryable_error` inspects: the optional structured code string
  (`str(error.error.error_code)` when both `hasattr` checks succeed, `none`
  otherwise) and the stringified message (`str(error)`).
* The wrapped operation is modelled as a function from the 0-based invocation
  index to an outcome: success, a `GoogleAdsException`, or an unexpected
  (non-GoogleAds) exception of an abstract type `ε`.
* `random.random()` is modelled as a stream `rand : Nat → ℚ` indexed by the
  attempt number, each value assumed to lie in `[0, 1)`.
* The wrapper's side effects (invocation count and the list of slept delays)
  are returned explicitly alongside the result.
-/

namespace GoogleAdsRetry

/-- Model of `GoogleAdsException`: the optional structured error code string
(present exactly when `hasattr(error, 'error') and hasattr(error.error,
'error_code')` holds in the source) and the stringified message. -/
structure GoogleAdsException where
  error_code : Option String
  message : String
deriving DecidableEq, Repr

/-- Boolean test: `needle` is a contiguous substring of `hay`, as lists of
characters (models Python's `in` operator on strings). -/
def listIsPrefixOf : List Char → List Char → Bool
  | [], _ => true
  | _ :: _, [] => false
  | a :: as, b :: bs => a == b && listIsPrefixOf as bs

/-- `listContainsSub hay needle` : `needle` occurs contiguously in `hay`. -/
def listContainsSub (needle : List Char) : List Char → Bool
  | [] => listIsPrefixOf needle []
  | c :: cs => listIsPrefixOf needle (c :: cs) || listContainsSub needle cs

/-- `strContainsSub hay needle` models Python's `needle in hay` on strings. -/
def strContainsSub (hay needle : String) : Bool :=
  listContainsSub needle.toList hay.toList

/-- Python's `s.upper()`, as a character list (ASCII case mapping). -/
def pyUpper (s : String) : List Char :=
  s.toList.map Char.toUpper

/-- Python's `s.lower()`, as a character list (ASCII case mapping). -/
def pyLower (s : String) : List Char :=
  s.toList.map Char.toLower

/-- The fixed allow-list of retryable error codes from `_is_retryable_error`. -/
def retryable_error_codes : List String :=
  ["INTERNAL_ERROR", "QUOTA_ERROR", "RATE_EXCEEDED",
   "CONCURRENT_MODIFICATION", "PARTIAL_FAILURE_ERROR"]

/-- The fixed list of retryable message phrases from `_is_retryable_error`. -/
def retryable_messages : List String :=
  ["internal error", "rate exceeded", "quota exceeded",
   "timeout", "temporary failure", "service unavailable"]

/-- Embedding of `_is_retryable_error`: the structured code (when present,
upper-cased) is checked for membership of any allow-listed code as a
substring; otherwise, and on no code match, the lower-cased message is
checked for any retryable phrase; unmatched errors are not retryable. -/
def _is_retryable_error (error : GoogleAdsException) : Bool :=
  let codeMatch :=
    match error.error_code with
    | some error_code =>
        retryable_error_codes.any (fun code => listContainsSub code.toList (pyUpper error_code))
    | none => false
  if codeMatch then
    true
  else if retryable_messages.any (fun msg => listContainsSub msg.toList (pyLower error.message)) then
    true
  else
    false

/-- The retry configuration: keyword arguments of `retry_on_api_error`. -/
structure RetryConfig where
  max_attempts : Int
  base_delay : ℚ
  max_delay : ℚ
  backoff_factor : ℚ
  jitter : Bool

/-- One invocation's outcome: the wrapped callable returns a value, raises a
`GoogleAdsException`, or raises some other (unexpected) exception. -/
inductive Outcome (α ε : Type) where
  | success (v : α)
  | gads (e : GoogleAdsException)
  | unexpected (e : ε)

/-- Reason tag of a surfaced failure. -/
inductive FailureReason where
  | non_retryable
  | exhausted
deriving DecidableEq, Repr

/-- Modelled from the spec: `APIError` (the `NormalizedFailure` surfaced to
callers) lives in `exceptions.py`, which is not part of the given sources; per
the spec it carries the message, the original error (causal link), the attempt
count, and a reason tag.  The wrapper fills `attempt_count` with the keyword
argument it passes (`attempt + 1` for the non-retryable raise,
`max_attempts` for the exhausted raise). -/
structure APIError where
  message : String
  original_error : Option GoogleAdsException
  attempt_count : Int
  reason : FailureReason
deriving DecidableEq, Repr

/-- Result of one `wrapper(...)` call: a returned value, a raised `APIError`,
or an unexpected exception propagated unmodified. -/
inductive RetryResult (α ε : Type) where
  | ok (v : α)
  | apiError (e : APIError)
  | unexpected (e : ε)
deriving DecidableEq

/-- A wrapper run together with its observable side effects: how many times
the wrapped operation was invoked and the delays slept, in order. -/
structure RunResult (α ε : Type) where
  result : RetryResult α ε
  invocations : Nat
  sleeps : List ℚ

/-- The uncapped exponential backoff value `base_delay * backoff_factor ** attempt`. -/
def uncapped_delay (cfg : RetryConfig) (attempt : Nat) : ℚ :=
  cfg.base_delay * cfg.backoff_factor ^ attempt

/-- `delay = min(base_delay * (backoff_factor ** attempt), max_delay)` from the
source (the value before jitter). -/
def delay_for (cfg : RetryConfig) (attempt : Nat) : ℚ :=
  min (uncapped_delay cfg attempt) cfg.max_delay

/-- The delay actually passed to `time.sleep`: the capped value, multiplied by
`0.5 + random.random() * 0.5` when jitter is enabled. -/
def sleptDelay (cfg : RetryConfig) (rand : Nat → ℚ) (attempt : Nat) : ℚ :=
  let delay := delay_for cfg attempt
  if cfg.jitter then delay * (1/2 + rand attempt * (1/2)) else delay

/-- The message of the non-retryable `APIError` raise. -/
def nonRetryableMessage (funcName : String) : String :=
  "Google Ads API error in " ++ funcName

/-- The message of the exhausted `APIError` raise. -/
def exhaustedMessage (funcName : String) : String :=
  "Max retries exceeded for " ++ funcName

/-- The body of `wrapper`, from iteration `attempt` of the `for` loop with
`remaining` iterations left (so `remaining = max_attempts - attempt` at entry)
and `last_exception = lastExc`.  `remaining = 0` is the normal loop exit,
reaching the final `raise APIError("Max retries exceeded ...")`. -/
def retryRunAux (cfg : RetryConfig) (funcName : String)
    (op : Nat → Outcome α ε) (rand : Nat → ℚ) :
    Nat → Nat → Option GoogleAdsException → RunResult α ε
  | _, 0, lastExc =>
      ⟨.apiError ⟨exhaustedMessage funcName, lastExc, cfg.max_attempts, .exhausted⟩, 0, []⟩
  | attempt, remaining + 1, _ =>
      match op attempt with
      | .success v => ⟨.ok v, 1, []⟩
      | .unexpected e => ⟨.unexpected e, 1, []⟩
      | .gads e =>
          if _is_retryable_error e then
            match remaining with
            | 0 =>
                ⟨.apiError ⟨exhaustedMessage funcName, some e, cfg.max_attempts, .exhausted⟩,
                  1, []⟩
            | remaining' + 1 =>
                let delay := sleptDelay cfg rand attempt
                let rest := retryRunAux cfg funcName op rand (attempt + 1) (remaining' + 1) (some e)
                ⟨rest.result, rest.invocations + 1, delay :: rest.sleeps⟩
          else
            ⟨.apiError ⟨nonRetryableMessage funcName, some e, (attempt : Int) + 1,
              .non_retryable⟩, 1, []⟩

/-- Embedding of a whole `wrapper(*args, **kwargs)` call: run the loop from
attempt 0 with `max_attempts.toNat` iterations (`range(max_attempts)`) and
`last_exception = None`. -/
def retry_on_api_error (cfg : RetryConfig) (funcName : String)
    (op : Nat → Outcome α ε) (rand : Nat → ℚ) : RunResult α ε :=
  retryRunAux cfg funcName op rand 0 cfg.max_attempts.toNat none

/-- An outcome at which the loop terminates at once: a returned value, an
unexpected exception, or a `GoogleAdsException` classified non-retryable. -/
def stopsHere : Outcome α ε → Bool
  | .gads e => ! _is_retryable_error e
  | _ => true

/-- The result of the wrapper when iteration `idx` hits a terminating outcome:
return the value, re-raise the unexpected exception unmodified, or raise the
non-retryable `APIError` carrying `attempt = idx + 1`. -/
def stopResult (funcName : String) (idx : Nat) : Outcome α ε → RetryResult α ε
  | .success v => .ok v
  | .gads e =>
      .apiError ⟨nonRetryableMessage funcName, some e, (idx : Int) + 1, .non_retryable⟩
  | .unexpected e => .unexpected e

/-! ### Concrete sample data used by witnesses and counterexamples -/

/-- A retryable error: its code is on the allow-list. -/
def eRetry : GoogleAdsException := ⟨some "RATE_EXCEEDED", "rate exceeded by customer"⟩

/-- A non-retryable error: neither code nor message matches. -/
def eFatal : GoogleAdsException := ⟨some "INVALID_ARGUMENT", "invalid customer id"⟩

/-- An error with no structured code whose message matches a retryable phrase. -/
def eMsgOnly : GoogleAdsException := ⟨none, "Deadline Timeout occurred"⟩

/-- `max_attempts=3, base_delay=1.0, max_delay=30.0, backoff_factor=2.0, jitter=False`. -/
def cfg3 : RetryConfig := ⟨3, 1, 30, 2, false⟩

/-- A config with a binding cap: `max_delay = 1.0 < base_delay * 2 ** 3`, jitter on. -/
def cfgJ : RetryConfig := ⟨5, 1, 1, 2, true⟩

/-- A config with a non-positive attempt budget. -/
def cfgNeg : RetryConfig := ⟨-2, 1, 30, 2, false⟩

/-- A degenerate random source returning `0` on every draw. -/
def randZero : Nat → ℚ := fun _ => 0

/-- A random source returning `1/2` on every draw (a legal `random.random()` value). -/
def randHalf : Nat → ℚ := fun _ => 1/2

/-- An operation failing with the retryable `eRetry` on every invocation. -/
def opAlwaysRetryable : Nat → Outcome Nat Unit := fun _ => .gads eRetry

/-- An operation failing retryably once, then with the non-retryable `eFatal`. -/
def opFatalSecond : Nat → Outcome Nat Unit :=
  fun i => if i = 0 then .gads eRetry else .gads eFatal

/-- An operation failing retryably once, then raising an unexpected exception. -/
def opUnexpectedSecond : Nat → Outcome Nat Unit :=
  fun i => if i = 0 then .gads eRetry else .unexpected ()

/-- An operation failing retryably once, then succeeding with value `42`. -/
def opSucceedsSecond : Nat → Outcome Nat Unit :=
  fun i => if i = 0 then .gads eRetry else .success 42

/-! ### Step equations of the loop -/

/-- When the current invocation succeeds, the call returns at once. -/
theorem retryRunAux_step_success {cfg : RetryConfig} {fn : String}
    {op : Nat → Outcome α ε} {rand : Nat → ℚ} {a rem : Nat}
    {lastExc : Option GoogleAdsException} {v : α} (h : op a = .success v) :
    retryRunAux cfg fn op rand a (rem + 1) lastExc = ⟨.ok v, 1, []⟩ := by
  rw [retryRunAux, h]

/-- When the current invocation raises a non-GoogleAds exception, it
propagates at once, unmodified. -/
theorem retryRunAux_step_unexpected {cfg : RetryConfig} {fn : String}
    {op : Nat → Outcome α ε} {rand : Nat → ℚ} {a rem : Nat}
    {lastExc : Option GoogleAdsException} {e : ε} (h : op a = .unexpected e) :
    retryRunAux cfg fn op rand a (rem + 1) lastExc = ⟨.unexpected e, 1, []⟩ := by
  rw [retryRunAux, h]

/-- When the current invocation raises a non-retryable `GoogleAdsException`,
the non-retryable `APIError` is raised at once, carrying `attempt = a + 1`. -/
theorem retryRunAux_step_fatal {cfg : RetryConfig} {fn : String}
    {op : Nat → Outcome α ε} {rand : Nat → ℚ} {a rem : Nat}
    {lastExc : Option GoogleAdsException} {e : GoogleAdsException}
    (h : op a = .gads e) (hre : _is_retryable_error e = false) :
    retryRunAux cfg fn op rand a (rem + 1) lastExc =
      ⟨.apiError ⟨nonRetryableMessage fn, some e, (a : Int) + 1, .non_retryable⟩, 1, []⟩ := by
  rw [retryRunAux, h]
  simp [hre]

/-- A retryable `GoogleAdsException` on the last remaining iteration breaks
out of the loop into the exhausted raise. -/
theorem retryRunAux_step_last {cfg : RetryConfig} {fn : String}
    {op : Nat → Outcome α ε} {rand : Nat → ℚ} {a : Nat}
    {lastExc : Option GoogleAdsException} {e : GoogleAdsException}
    (h : op a = .gads e) (hre : _is_retryable_error e = true) :
    retryRunAux cfg fn op rand a 1 lastExc =
      ⟨.apiError ⟨exhaustedMessage fn, some e, cfg.max_attempts, .exhausted⟩, 1, []⟩ := by
  rw [retryRunAux, h]
  simp [hre]

/-- A retryable `GoogleAdsException` with iterations to spare sleeps the
(possibly jittered) delay and continues with the next attempt. -/
theorem retryRunAux_step_retry {cfg : RetryConfig} {fn : String}
    {op : Nat → Outcome α ε} {rand : Nat → ℚ} {a rem : Nat}
    {lastExc : Option GoogleAdsException} {e : GoogleAdsException}
    (h : op a = .gads e) (hre : _is_retryable_error e = true) :
    retryRunAux cfg fn op rand a (rem + 2) lastExc =
      ⟨(retryRunAux cfg fn op rand (a + 1) (rem + 1) (some e)).result,
        (retryRunAux cfg fn op rand (a + 1) (rem + 1) (some e)).invocations + 1,
        sleptDelay cfg rand a ::
          (retryRunAux cfg fn op rand (a + 1) (rem + 1) (some e)).sleeps⟩ := by
  rw [retryRunAux, h]
  simp [hre]

/-! ### Structural lemmas about the loop -/

/-- If every invocation fails with a retryable `GoogleAdsException`, the loop
runs through all `rem + 1` remaining iterations, sleeps between consecutive
iterations only, and ends in the exhausted raise linked to the last error. -/
theorem retryRunAux_allRetryable (cfg : RetryConfig) (fn : String)
    (op : Nat → Outcome α ε) (rand : Nat → ℚ) (errAt : Nat → GoogleAdsException)
    (hop : ∀ i, op i = .gads (errAt i))
    (hret : ∀ i, _is_retryable_error (errAt i) = true) :
    ∀ rem a lastExc,
      retryRunAux cfg fn op rand a (rem + 1) lastExc =
        ⟨.apiError ⟨exhaustedMessage fn, some (errAt (a + rem)), cfg.max_attempts,
            .exhausted⟩,
          rem + 1, (List.range' a rem).map (sleptDelay cfg rand)⟩ := by
  intro rem
  induction rem with
  | zero =>
    intro a lastExc
    rw [retryRunAux_step_last (hop a) (hret a)]
    simp
  | succ r ih =>
    intro a lastExc
    rw [retryRunAux_step_retry (hop a) (hret a), ih (a + 1) (some (errAt a))]
    rw [show a + 1 + r = a + (r + 1) from by omega]
    simp [List.range']

/-- If iterations `a .. a+j-1` fail retryably and iteration `a+j` hits a
terminating outcome, the loop makes exactly `j + 1` invocations from state
`(a, rem)`, sleeps exactly before each of the `j` retries, and produces the
terminating outcome's result. -/
theorem retryRunAux_stopsAt (cfg : RetryConfig) (fn : String)
    (op : Nat → Outcome α ε) (rand : Nat → ℚ) (errAt : Nat → GoogleAdsException) :
    ∀ j rem a lastExc, j < rem →
      (∀ i, i < j → op (a + i) = .gads (errAt (a + i)) ∧
        _is_retryable_error (errAt (a + i)) = true) →
      stopsHere (op (a + j)) = true →
      retryRunAux cfg fn op rand a rem lastExc =
        ⟨stopResult fn (a + j) (op (a + j)), j + 1,
          (List.range' a j).map (sleptDelay cfg rand)⟩ := by
  intro j
  induction j with
  | zero =>
    intro rem a lastExc hlt _ hstop
    obtain ⟨rem', rfl⟩ : ∃ r, rem = r + 1 := ⟨rem - 1, by omega⟩
    simp only [Nat.add_zero] at hstop ⊢
    cases ho : op a with
    | success v => rw [retryRunAux_step_success ho]; simp [stopResult]
    | unexpected e => rw [retryRunAux_step_unexpected ho]; simp [stopResult]
    | gads e =>
      rw [ho] at hstop
      simp only [stopsHere, Bool.not_eq_true'] at hstop
      rw [retryRunAux_step_fatal ho hstop]
      simp [stopResult]
  | succ j ih =>
    intro rem a lastExc hlt hpre hstop
    obtain ⟨rem', rfl⟩ : ∃ r, rem = r + 1 := ⟨rem - 1, by omega⟩
    obtain ⟨r, rfl⟩ : ∃ r', rem' = r' + 1 := ⟨rem' - 1, by omega⟩
    have h0 := hpre 0 (by omega)
    rw [Nat.add_zero] at h0
    have hpre' : ∀ i, i < j → op (a + 1 + i) = .gads (errAt (a + 1 + i)) ∧
        _is_retryable_error (errAt (a + 1 + i)) = true := by
      intro i hi
      have := hpre (i + 1) (by omega)
      rwa [show a + (i + 1) = a + 1 + i from by omega] at this
    have hstop' : stopsHere (op (a + 1 + j)) = true := by
      rwa [show a + 1 + j = a + (j + 1) from by omega]
    rw [retryRunAux_step_retry h0.1 h0.2,
      ih (r + 1) (a + 1) (some (errAt a)) (by omega) hpre' hstop']
    rw [show a + 1 + j = a + (j + 1) from by omega]
    simp [List.range']

/-- Budget and sleep-count invariants of the loop, for every operation. -/
theorem retryRunAux_bounds (cfg : RetryConfig) (fn : String)
    (op : Nat → Outcome α ε) (rand : Nat → ℚ) :
    ∀ rem a lastExc,
      (retryRunAux cfg fn op rand a rem lastExc).invocations ≤ rem ∧
      (1 ≤ rem → 1 ≤ (retryRunAux cfg fn op rand a rem lastExc).invocations) ∧
      ((retryRunAux cfg fn op rand a rem lastExc).sleeps.length + 1 ≤
          (retryRunAux cfg fn op rand a rem lastExc).invocations ∨
        ((retryRunAux cfg fn op rand a rem lastExc).invocations = 0 ∧
          (retryRunAux cfg fn op rand a rem lastExc).sleeps = [])) := by
  intro rem
  induction rem with
  | zero =>
    intro a lastExc
    refine ⟨le_rfl, by omega, Or.inr ⟨rfl, rfl⟩⟩
  | succ rem ih =>
    intro a lastExc
    cases ho : op a with
    | success v =>
      rw [retryRunAux_step_success ho]
      exact ⟨Nat.succ_le_succ (Nat.zero_le rem), fun _ => le_rfl, Or.inl (by simp)⟩
    | unexpected e =>
      rw [retryRunAux_step_unexpected ho]
      exact ⟨Nat.succ_le_succ (Nat.zero_le rem), fun _ => le_rfl, Or.inl (by simp)⟩
    | gads e =>
      by_cases hre : _is_retryable_error e = true
      · cases rem with
        | zero =>
          rw [retryRunAux_step_last ho hre]
          exact ⟨le_rfl, fun _ => le_rfl, Or.inl (by simp)⟩
        | succ r =>
          rw [retryRunAux_step_retry ho hre]
          obtain ⟨h1, h2, h3⟩ := ih (a + 1) (some e)
          have h4 := h2 (by omega)
          refine ⟨by simpa using h1, fun _ => by simp, Or.inl ?_⟩
          simp only [List.length_cons]
          rcases h3 with h3 | h3
          · omega
          · omega
      · rw [retryRunAux_step_fatal ho (by simpa using hre)]
        exact ⟨Nat.succ_le_succ (Nat.zero_le rem), fun _ => le_rfl, Or.inl (by simp)⟩

/-! ### Claim theorems -/

/-- C1: with `max_attempts = N ≥ 1`, an operation failing with a retryable
classified error on every invocation is invoked exactly `N` times, and the
raised `APIError` has reason `exhausted`, attempt count `N`, and a causal link
to the last observed error. -/
theorem claim_exhausted_after_budget (cfg : RetryConfig) (fn : String)
    (op : Nat → Outcome α ε) (rand : Nat → ℚ) (errAt : Nat → GoogleAdsException)
    (N : Nat) (hN : cfg.max_attempts = (N : Int)) (h1 : 1 ≤ N)
    (hop : ∀ i, op i = .gads (errAt i))
    (hret : ∀ i, _is_retryable_error (errAt i) = true) :
    (retry_on_api_error cfg fn op rand).invocations = N ∧
    (retry_on_api_error cfg fn op rand).result =
      .apiError ⟨exhaustedMessage fn, some (errAt (N - 1)), (N : Int), .exhausted⟩ := by
  obtain ⟨M, rfl⟩ : ∃ M, N = M + 1 := ⟨N - 1, by omega⟩
  unfold retry_on_api_error
  rw [hN]
  rw [show ((M + 1 : Nat) : Int).toNat = M + 1 from by simp]
  rw [retryRunAux_allRetryable cfg fn op rand errAt hop hret M 0 none]
  refine ⟨rfl, ?_⟩
  simp [hN]

/-- C1 witness: `cfg3` (3 attempts) against an always-retryable failure. -/
theorem claim_exhausted_after_budget_witness :
    (retry_on_api_error cfg3 "report" opAlwaysRetryable randZero).invocations = 3 ∧
    (retry_on_api_error cfg3 "report" opAlwaysRetryable randZero).result =
      .apiError ⟨exhaustedMessage "report", some eRetry, (3 : Int), .exhausted⟩ :=
  claim_exhausted_after_budget cfg3 "report" opAlwaysRetryable randZero (fun _ => eRetry) 3
    (by decide) (by decide) (fun _ => rfl)
    (fun _ => (by decide : _is_retryable_error eRetry = true))

/-- C2: `_is_retryable_error` returns `true` exactly when the upper-cased
structured code (when present) contains an allow-listed code as a substring,
or the lower-cased message contains one of the retryable phrases; everything
else is non-retryable (default deny). -/
theorem claim_classifier_characterization (e : GoogleAdsException) :
    _is_retryable_error e = true ↔
      ((∃ c, e.error_code = some c ∧
          ∃ code ∈ retryable_error_codes, listContainsSub code.toList (pyUpper c) = true) ∨
        (∃ msg ∈ retryable_messages,
          listContainsSub msg.toList (pyLower e.message) = true)) := by
  unfold _is_retryable_error
  cases h : e.error_code with
  | none => simp [List.any_eq_true]
  | some c => simp [List.any_eq_true]

/-- C2 witness: a code-less error whose message mentions a timeout is
classified retryable. -/
theorem claim_classifier_characterization_witness :
    _is_retryable_error eMsgOnly = true :=
  (claim_classifier_characterization eMsgOnly).mpr
    (Or.inr ⟨"timeout", by decide, by decide⟩)

/-- C3 counterexample: with a retryable error on the first attempt and a
non-retryable one on the second, the non-retryable `APIError` carries
attempt count `2`, not `1` as the claim states. -/
theorem claim_nonretryable_attempt_count_cex :
    (retry_on_api_error cfg3 "report" opFatalSecond randZero).result =
      .apiError ⟨nonRetryableMessage "report", some eFatal, (2 : Int), .non_retryable⟩ ∧
    (APIError.mk (nonRetryableMessage "report") (some eFatal) 2
        FailureReason.non_retryable).attempt_count ≠ 1 :=
  ⟨by decide, by decide⟩

/-- C3 (amended): a non-retryable classified error on attempt index `k`
(after `k` retryable failures) raises the non-retryable `APIError` at once:
no further invocations (`k + 1` total), no sleep after the fatal error (only
the `k` sleeps between earlier attempts), and attempt count `k + 1` — which
equals `1` exactly when the fatal error occurs on the first attempt. -/
theorem claim_nonretryable_immediate_amended (cfg : RetryConfig) (fn : String)
    (op : Nat → Outcome α ε) (rand : Nat → ℚ) (errAt : Nat → GoogleAdsException)
    (k : Nat) (eF : GoogleAdsException)
    (hk : k < cfg.max_attempts.toNat)
    (hpre : ∀ i, i < k → op i = .gads (errAt i) ∧ _is_retryable_error (errAt i) = true)
    (hf : op k = .gads eF) (hnr : _is_retryable_error eF = false) :
    retry_on_api_error cfg fn op rand =
      ⟨.apiError ⟨nonRetryableMessage fn, some eF, (k : Int) + 1, .non_retryable⟩, k + 1,
        (List.range' 0 k).map (sleptDelay cfg rand)⟩ := by
  unfold retry_on_api_error
  have h := retryRunAux_stopsAt cfg fn op rand errAt k cfg.max_attempts.toNat 0 none hk
    (by intro i hi; simpa using hpre i hi) (by simp [hf, stopsHere, hnr])
  simpa [hf, stopResult] using h

/-- C3 witness for the amended claim: fatal on the second attempt. -/
theorem claim_nonretryable_immediate_amended_witness :
    retry_on_api_error cfg3 "report" opFatalSecond randZero =
      ⟨.apiError ⟨nonRetryableMessage "report", some eFatal, (1 : Int) + 1, .non_retryable⟩,
        2, (List.range' 0 1).map (sleptDelay cfg3 randZero)⟩ :=
  claim_nonretryable_immediate_amended cfg3 "report" opFatalSecond randZero
    (fun _ => eRetry) 1 eFatal (by decide)
    (fun i hi => by
      have h : i = 0 := by omega
      subst h
      exact ⟨rfl, by decide⟩)
    rfl (by decide)

/-- C4 counterexample: with a binding cap (`max_delay` below the uncapped
exponential value) the slept delay falls strictly below the claimed interval
`[0.5, 1.0) * uncapped_value`, because jitter multiplies the capped value. -/
theorem claim_jitter_interval_cex :
    (0 ≤ randHalf 3 ∧ randHalf 3 < 1) ∧
    (retry_on_api_error cfgJ "report" opAlwaysRetryable randHalf).sleeps.getD 3 0 =
      sleptDelay cfgJ randHalf 3 ∧
    sleptDelay cfgJ randHalf 3 < 1/2 * uncapped_delay cfgJ 3 := by
  refine ⟨⟨by norm_num [randHalf], by norm_num [randHalf]⟩, rfl, ?_⟩
  norm_num [sleptDelay, delay_for, uncapped_delay, cfgJ, randHalf, min_def]

/-- C4 (amended): with jitter enabled and a legal random draw in `[0, 1)`,
the slept delay lies in `[0.5, 1.0)` times the capped value
`min(base_delay * backoff_factor ^ i, max_delay)` (strictly below it whenever
that value is positive), and in particular never exceeds `max_delay`. -/
theorem claim_jitter_bounds_amended (cfg : RetryConfig) (rand : Nat → ℚ) (i : Nat)
    (hj : cfg.jitter = true)
    (hb : 0 ≤ cfg.base_delay) (hf : 0 ≤ cfg.backoff_factor) (hm : 0 ≤ cfg.max_delay)
    (h0 : 0 ≤ rand i) (h1 : rand i < 1) :
    1/2 * delay_for cfg i ≤ sleptDelay cfg rand i ∧
    sleptDelay cfg rand i ≤ delay_for cfg i ∧
    sleptDelay cfg rand i ≤ cfg.max_delay ∧
    (0 < delay_for cfg i → sleptDelay cfg rand i < delay_for cfg i) := by
  have hd0 : 0 ≤ delay_for cfg i :=
    le_min (mul_nonneg hb (pow_nonneg hf i)) hm
  have hdm : delay_for cfg i ≤ cfg.max_delay := min_le_right _ _
  have hslept : sleptDelay cfg rand i = delay_for cfg i * (1/2 + rand i * (1/2)) := by
    unfold sleptDelay
    rw [hj]
    simp
  rw [hslept]
  refine ⟨by nlinarith, by nlinarith, by nlinarith, fun hpos => by nlinarith⟩

/-- C4 witness for the amended claim: `cfgJ` at attempt index 0. -/
theorem claim_jitter_bounds_amended_witness :
    1/2 * delay_for cfgJ 0 ≤ sleptDelay cfgJ randHalf 0 ∧
    sleptDelay cfgJ randHalf 0 ≤ delay_for cfgJ 0 ∧
    sleptDelay cfgJ randHalf 0 ≤ cfgJ.max_delay ∧
    (0 < delay_for cfgJ 0 → sleptDelay cfgJ randHalf 0 < delay_for cfgJ 0) :=
  claim_jitter_bounds_amended cfgJ randHalf 0 rfl (by norm_num [cfgJ])
    (by norm_num [cfgJ]) (by norm_num [cfgJ]) (by norm_num [randHalf])
    (by norm_num [randHalf])

/-- C5: an error that is not the declared classified-error type propagates
immediately and unmodified on its first occurrence (attempt index `k`), with
no retry of it and no sleep after it, regardless of the remaining budget. -/
theorem claim_unexpected_propagates (cfg : RetryConfig) (fn : String)
    (op : Nat → Outcome α ε) (rand : Nat → ℚ) (errAt : Nat → GoogleAdsException)
    (k : Nat) (u : ε)
    (hk : k < cfg.max_attempts.toNat)
    (hpre : ∀ i, i < k → op i = .gads (errAt i) ∧ _is_retryable_error (errAt i) = true)
    (hu : op k = .unexpected u) :
    retry_on_api_error cfg fn op rand =
      ⟨.unexpected u, k + 1, (List.range' 0 k).map (sleptDelay cfg rand)⟩ := by
  unfold retry_on_api_error
  have h := retryRunAux_stopsAt cfg fn op rand errAt k cfg.max_attempts.toNat 0 none hk
    (by intro i hi; simpa using hpre i hi) (by simp [hu, stopsHere])
  simpa [hu, stopResult] using h

/-- C5 witness: an unexpected error on the second attempt. -/
theorem claim_unexpected_propagates_witness :
    retry_on_api_error cfg3 "report" opUnexpectedSecond randZero =
      ⟨.unexpected (), 2, (List.range' 0 1).map (sleptDelay cfg3 randZero)⟩ :=
  claim_unexpected_propagates cfg3 "report" opUnexpectedSecond randZero
    (fun _ => eRetry) 1 () (by decide)
    (fun i hi => by
      have h : i = 0 := by omega
      subst h
      exact ⟨rfl, by decide⟩)
    rfl

/-- C6: an operation failing retryably on attempts `0 .. k-1` and succeeding
on attempt `k < max_attempts` is invoked exactly `k + 1` times and its result
is returned unchanged, with no error raised. -/
theorem claim_success_returns (cfg : RetryConfig) (fn : String)
    (op : Nat → Outcome α ε) (rand : Nat → ℚ) (errAt : Nat → GoogleAdsException)
    (k : Nat) (v : α)
    (hk : k < cfg.max_attempts.toNat)
    (hpre : ∀ i, i < k → op i = .gads (errAt i) ∧ _is_retryable_error (errAt i) = true)
    (hs : op k = .success v) :
    retry_on_api_error cfg fn op rand =
      ⟨.ok v, k + 1, (List.range' 0 k).map (sleptDelay cfg rand)⟩ := by
  unfold retry_on_api_error
  have h := retryRunAux_stopsAt cfg fn op rand errAt k cfg.max_attempts.toNat 0 none hk
    (by intro i hi; simpa using hpre i hi) (by simp [hs, stopsHere])
  simpa [hs, stopResult] using h

/-- C6 witness: success with value 42 on the second attempt. -/
theorem claim_success_returns_witness :
    retry_on_api_error cfg3 "report" opSucceedsSecond randZero =
      ⟨.ok 42, 2, (List.range' 0 1).map (sleptDelay cfg3 randZero)⟩ :=
  claim_success_returns cfg3 "report" opSucceedsSecond randZero
    (fun _ => eRetry) 1 42 (by decide)
    (fun i hi => by
      have h : i = 0 := by omega
      subst h
      exact ⟨rfl, by decide⟩)
    rfl

/-- C7: without jitter the delay is `min(base_delay * backoff_factor ^ i,
max_delay)`; it is monotonically non-decreasing in `i` when
`backoff_factor ≥ 1` (and `base_delay ≥ 0`), and never exceeds `max_delay`. -/
theorem claim_delay_schedule (cfg : RetryConfig) (i j : Nat)
    (hb : 0 ≤ cfg.base_delay) (hf : 1 ≤ cfg.backoff_factor) (hij : i ≤ j) :
    delay_for cfg i = min (cfg.base_delay * cfg.backoff_factor ^ i) cfg.max_delay ∧
    delay_for cfg i ≤ delay_for cfg j ∧
    delay_for cfg i ≤ cfg.max_delay := by
  refine ⟨rfl, ?_, min_le_right _ _⟩
  unfold delay_for uncapped_delay
  exact min_le_min (mul_le_mul_of_nonneg_left (pow_le_pow_right₀ hf hij) hb) le_rfl

/-- C7 witness: `cfg3` at attempt indices 1 and 2. -/
theorem claim_delay_schedule_witness :
    delay_for cfg3 1 = min (cfg3.base_delay * cfg3.backoff_factor ^ 1) cfg3.max_delay ∧
    delay_for cfg3 1 ≤ delay_for cfg3 2 ∧
    delay_for cfg3 1 ≤ cfg3.max_delay :=
  claim_delay_schedule cfg3 1 2 (by norm_num [cfg3]) (by norm_num [cfg3]) (by norm_num)

/-- C8: for every operation and outcome, the operation is invoked at most
`max_attempts` times, and the number of sleeps is at most one less than the
number of invocations (a sleep only ever occurs between two attempts). -/
theorem claim_budget_invariant (cfg : RetryConfig) (fn : String)
    (op : Nat → Outcome α ε) (rand : Nat → ℚ) :
    (retry_on_api_error cfg fn op rand).invocations ≤ cfg.max_attempts.toNat ∧
    (retry_on_api_error cfg fn op rand).sleeps.length ≤
      (retry_on_api_error cfg fn op rand).invocations - 1 := by
  unfold retry_on_api_error
  obtain ⟨h1, -, h3⟩ := retryRunAux_bounds cfg fn op rand cfg.max_attempts.toNat 0 none
  refine ⟨h1, ?_⟩
  rcases h3 with h | ⟨-, hs⟩
  · omega
  · simp [hs]

/-- C9: when the structured code fields are absent, classification does not
fail; retryability is decided by the message phrase matching alone. -/
theorem claim_no_code_message_only (e : GoogleAdsException)
    (h : e.error_code = none) :
    _is_retryable_error e =
      retryable_messages.any (fun msg => listContainsSub msg.toList (pyLower e.message)) := by
  unfold _is_retryable_error
  rw [h]
  cases hm : retryable_messages.any
      (fun msg => listContainsSub msg.toList (pyLower e.message)) <;> simp [hm]

/-- C9 witness: the code-less timeout error is decided by its message. -/
theorem claim_no_code_message_only_witness :
    _is_retryable_error eMsgOnly =
      retryable_messages.any
        (fun msg => listContainsSub msg.toList (pyLower eMsgOnly.message)) :=
  claim_no_code_message_only eMsgOnly rfl

/-- C10: with `max_attempts ≤ 0` the operation is never invoked, nothing is
slept, and the exhausted-style `APIError` (message `Max retries exceeded
...`) is raised with `original_error = None`: the `max_attempts ≥ 1`
precondition is not validated. -/
theorem claim_nonpositive_budget (cfg : RetryConfig) (fn : String)
    (op : Nat → Outcome α ε) (rand : Nat → ℚ) (h : cfg.max_attempts ≤ 0) :
    retry_on_api_error cfg fn op rand =
      ⟨.apiError ⟨exhaustedMessage fn, none, cfg.max_attempts, .exhausted⟩, 0, []⟩ := by
  unfold retry_on_api_error
  rw [Int.toNat_of_nonpos h, retryRunAux]

/-- C10 witness: a config with `max_attempts = -2`. -/
theorem claim_nonpositive_budget_witness :
    retry_on_api_error cfgNeg "report" opAlwaysRetryable randZero =
      ⟨.apiError ⟨exhaustedMessage "report", none, cfgNeg.max_attempts, .exhausted⟩, 0, []⟩ :=
  claim_nonpositive_budget cfgNeg "report" opAlwaysRetryable randZero (by decide)

end GoogleAdsRetry
